import Mathlib

set_option maxRecDepth 4000

/-!
Shallow embedding of the Azure IoT Hub MQTT client
(`src/src/azure_iot_mqtt.cpp`).  Byte strings are modelled as `List Char`,
each element standing for one byte of the corresponding C string.
-/

/-- Uppercase hex digit for a value below 16, as `snprintf "%02X"` prints it. -/
def hexUpper (d : Nat) : Char :=
  if d < 10 then Char.ofNat (48 + d) else Char.ofNat (55 + d)

/-- Value of a hex digit character (helper for standard percent-decoding). -/
def hexVal (c : Char) : Nat :=
  if 48 ≤ c.toNat ∧ c.toNat ≤ 57 then c.toNat - 48
  else if 65 ≤ c.toNat ∧ c.toNat ≤ 70 then c.toNat - 55
  else if 97 ≤ c.toNat ∧ c.toNat ≤ 102 then c.toNat - 87
  else 0

/-- The unreserved-character test of `urlEncode` (azure_iot_mqtt.cpp:50-51):
lowercase, uppercase, digit, `-`, `_`, `.`, `~`. -/
def isUnreservedChar (c : Char) : Bool :=
  (97 ≤ c.toNat && c.toNat ≤ 122) || (65 ≤ c.toNat && c.toNat ≤ 90) ||
  (48 ≤ c.toNat && c.toNat ≤ 57) || c.toNat == 45 || c.toNat == 95 ||
  c.toNat == 46 || c.toNat == 126

/-- Loop of `urlEncode` (azure_iot_mqtt.cpp:44-62).  `j` is the output write
cursor; the loop stops at a NUL byte or once `j < outputSize - 4` fails
(`size_t` arithmetic; every call site passes `outputSize ≥ 128`).  A byte that
is not unreserved is emitted as `%` and two uppercase hex digits of the byte
(the C cast to `unsigned char` is the `% 256`). -/
def urlEncodeAux (input : List Char) (j outputSize : Nat) : List Char :=
  match input with
  | [] => []
  | c :: rest =>
    if c.toNat = 0 then []
    else if j < outputSize - 4 then
      if isUnreservedChar c then c :: urlEncodeAux rest (j + 1) outputSize
      else
        '%' :: hexUpper (c.toNat % 256 / 16) :: hexUpper (c.toNat % 256 % 16)
          :: urlEncodeAux rest (j + 3) outputSize
    else []

/-- `urlEncode(input, output, outputSize)` (azure_iot_mqtt.cpp:44-62). -/
def urlEncode (input : List Char) (outputSize : Nat) : List Char :=
  urlEncodeAux input 0 outputSize

/-- Standard percent-decoding (the `decode` named by the spec): `%` followed by
two hex digits is replaced by the byte they denote; everything else is copied. -/
def percentDecode : List Char → List Char
  | [] => []
  | [c] => [c]
  | [c, d] => [c, d]
  | c :: d :: e :: rest =>
    if c = '%' then Char.ofNat (16 * hexVal d + hexVal e) :: percentDecode rest
    else c :: percentDecode (d :: e :: rest)

/-- Index of the first occurrence of `needle` in `hay`: the C `strstr`
(returns `none` when `strstr` returns `NULL`). -/
def firstOccur (hay needle : List Char) : Option Nat :=
  if needle.isPrefixOf hay then some 0
  else
    match hay with
    | [] => none
    | _ :: t => (firstOccur t needle).map (fun i => i + 1)

/-- `strstr(hay, needle) != NULL`. -/
def containsSub (hay needle : List Char) : Bool :=
  (firstOccur hay needle).isSome

/-- Digit-accumulation loop of the C `atoi`. -/
def natDigitsAux (acc : Nat) : List Char → Nat
  | [] => acc
  | c :: rest =>
    if 48 ≤ c.toNat ∧ c.toNat ≤ 57 then natDigitsAux (acc * 10 + (c.toNat - 48)) rest
    else acc

/-- C whitespace test (`isspace`) used by `atoi`. -/
def isSpaceChar (c : Char) : Bool :=
  c.toNat == 32 || c.toNat == 9 || c.toNat == 10 || c.toNat == 11 ||
  c.toNat == 12 || c.toNat == 13

/-- The C `atoi`: skip whitespace, optional sign, then leading digits
(result 0 when there are none). -/
def atoiModel (s : List Char) : Int :=
  match s.dropWhile isSpaceChar with
  | [] => 0
  | c :: rest =>
    if c = '-' then - Int.ofNat (natDigitsAux 0 rest)
    else if c = '+' then Int.ofNat (natDigitsAux 0 rest)
    else Int.ofNat (natDigitsAux 0 (c :: rest))

/-- Signing-string computation of `generateSasToken` (azure_iot_mqtt.cpp:142-152):
the resource URI `"{hostname}/devices/{deviceId}"` built into a 256-byte buffer,
percent-encoded into a 256-byte buffer, then `"{encodedUri}\n{expiry}"` printed
into a 512-byte buffer (`expiry` is a `uint32_t`, printed with `%lu`). -/
def signingString (hostname devId : List Char) (expiry : Nat) : List Char :=
  let resourceUri := (hostname ++ "/devices/".data ++ devId).take 255
  let encodedUri := urlEncode resourceUri 256
  (encodedUri ++ '\n' :: (Nat.repr (expiry % 2 ^ 32)).data).take 511

inductive ParseFieldName
  | hostName
  | devId
  | sharedKey
deriving DecidableEq

inductive ConnParseError
  | missingField (f : ParseFieldName)
  | fieldTooLong (f : ParseFieldName)
deriving DecidableEq

structure Credentials where
  hostName : List Char
  devId : List Char
  sharedKey : List Char
deriving DecidableEq

/-- The value of a field runs to the next `;` (the C `strchr`). -/
def notSemi (c : Char) : Bool := c ≠ ';'

/-- One field extraction of `parseConnectionString` (azure_iot_mqtt.cpp:72-126):
`strstr` for the tag anywhere in the string, value runs to the next `;` or the
end, and a value not strictly shorter than the field buffer is an error (the C
code prints "not found!" / "too long!" and returns `false`; the error value
records which check failed). -/
def parseField (connStr tagStr : List Char) (bufSize : Nat) (f : ParseFieldName) :
    Except ConnParseError (List Char) :=
  match firstOccur connStr tagStr with
  | none => .error (.missingField f)
  | some i =>
    if bufSize ≤ ((connStr.drop (i + tagStr.length)).takeWhile notSemi).length then
      .error (.fieldTooLong f)
    else .ok ((connStr.drop (i + tagStr.length)).takeWhile notSemi)

/-- `parseConnectionString` (azure_iot_mqtt.cpp:65-135): HostName into a
128-byte buffer, DeviceId and SharedAccessKey into 64-byte buffers, checked in
that order with short-circuit failure. -/
def parseConnectionString (connStr : List Char) : Except ConnParseError Credentials :=
  match parseField connStr "HostName=".data 128 .hostName with
  | .error e => .error e
  | .ok h =>
    match parseField connStr "DeviceId=".data 64 .devId with
    | .error e => .error e
    | .ok d =>
      match parseField connStr "SharedAccessKey=".data 64 .sharedKey with
      | .error e => .error e
      | .ok k => .ok ⟨h, d, k⟩

inductive TopicKind
  | c2d
  | twinRes (status : Int)
  | desired (version : Int)
  | unknown
deriving DecidableEq

/-- Topic classification chain of `mqttCallback` (azure_iot_mqtt.cpp:228-285):
`strstr` for `/messages/devicebound/`, else `strncmp` against
`$iothub/twin/res/` (17 bytes) with `atoi(topic + 17)` as status, else
`strncmp` against `$iothub/twin/PATCH/properties/desired/` (38 bytes) with the
version read by `atoi` after the first `$version=` (0 when absent). -/
def classifyTopic (topic : List Char) : TopicKind :=
  if containsSub topic "/messages/devicebound/".data then .c2d
  else if "$iothub/twin/res/".data.isPrefixOf topic then
    .twinRes (atoiModel (topic.drop 17))
  else if "$iothub/twin/PATCH/properties/desired/".data.isPrefixOf topic then
    .desired
      (match firstOccur topic "$version=".data with
       | none => 0
       | some i => atoiModel (topic.drop (i + 9)))
  else .unknown

/-- TopicRouter as the spec states it (spec §4.3): the same priority list
phrased independently of the C string routines — containment as "some tail
starts with the marker", the two topic prefixes by name, status the integer
parsed immediately after the response prefix, version parsed from `$version=`
with default 0.  Compared against `classifyTopic` for the refinement claim. -/
def routerSpec (topic : List Char) : TopicKind :=
  if topic.tails.any (fun t => "/messages/devicebound/".data.isPrefixOf t) then .c2d
  else if "$iothub/twin/res/".data.isPrefixOf topic then
    .twinRes (atoiModel (topic.drop ("$iothub/twin/res/".data.length)))
  else if "$iothub/twin/PATCH/properties/desired/".data.isPrefixOf topic then
    .desired
      (match firstOccur topic "$version=".data with
       | none => 0
       | some i => atoiModel (topic.drop (i + "$version=".data.length)))
  else .unknown

/-- The static session state of azure_iot_mqtt.cpp (lines 18-34, 25):
`sasToken` and `sasTokenExpiry` record the token generated by `azureIoTInit`
and the expiry instant it was built for (the code keeps only the string; the
expiry is carried here so staleness at connect time can be stated). -/
structure IoTState where
  isInitialized : Bool
  isConnected : Bool
  twinRequestId : Nat
  twinGetPending : Bool
  sasToken : List Char
  sasTokenExpiry : Nat
deriving DecidableEq

/-- Signed 32-bit reading of a stored bit pattern (the C `int`, printed `%d`). -/
def toSigned (n : Nat) : Int :=
  if n < 2 ^ 31 then (n : Int) else (n : Int) - 2 ^ 32

/-- Decimal rendering of a signed value, as `snprintf "%d"` prints it. -/
def intRepr (i : Int) : List Char :=
  if i < 0 then '-' :: (Nat.repr i.natAbs).data else (Nat.repr i.natAbs).data

/-- `azureIoTIsConnected` (azure_iot_mqtt.cpp:434-437); `transportUp` stands
for `mqttClient.connected()`. -/
def azureIoTIsConnected (st : IoTState) (transportUp : Bool) : Bool :=
  st.isConnected && transportUp

inductive ConnectEvent
  | attempt (n : Nat) (password : List Char) (ok : Bool)
  | delayMs (ms : Nat)
deriving DecidableEq

structure ConnectResult where
  state : IoTState
  success : Bool
  trace : List ConnectEvent
deriving DecidableEq

/-- Retry loop of `azureIoTConnect` (azure_iot_mqtt.cpp:391-427):
`while (!mqttClient.connected() && retries < 5)`, entered with the transport
disconnected.  `transport i` is the outcome of `mqttClient.connect` on the
0-based attempt `i`; the password passed is always the stored `sasToken`;
`delay(3000)` runs after every failed attempt.  `remaining = 5 - retries`
counts the attempts the `retries < 5` guard still allows. -/
def connectLoop (st : IoTState) (transport : Nat → Bool) (retries remaining : Nat) :
    ConnectResult :=
  match remaining with
  | 0 => { state := { st with isConnected := false }, success := false, trace := [] }
  | rem + 1 =>
    if transport retries then
      { state := { st with isConnected := true }, success := true,
        trace := [.attempt (retries + 1) st.sasToken true] }
    else
      let r := connectLoop st transport (retries + 1) rem
      { r with trace := .attempt (retries + 1) st.sasToken false ::
          .delayMs 3000 :: r.trace }

/-- `azureIoTConnect` (azure_iot_mqtt.cpp:375-432): fails immediately when not
initialized, otherwise runs the bounded retry loop (at most 5 attempts). -/
def azureIoTConnect (st : IoTState) (transport : Nat → Bool) : ConnectResult :=
  if st.isInitialized then connectLoop st transport 0 5
  else { state := st, success := false, trace := [] }

/-- `azureIoTLoop` (azure_iot_mqtt.cpp:439-451): when the transport reports
disconnection, clear `isConnected` and run one inline `azureIoTConnect`.
Message delivery by `mqttClient.loop()` is modelled separately (`mqttCallback`). -/
def azureIoTLoop (st : IoTState) (transportUp : Bool) (transport : Nat → Bool) :
    IoTState :=
  if st.isInitialized then
    if transportUp then st
    else (azureIoTConnect { st with isConnected := false } transport).state
  else st

structure RequestTwinResult where
  state : IoTState
  sentTopic : Option (List Char)
deriving DecidableEq

/-- `azureIoTRequestTwin` (azure_iot_mqtt.cpp:499-521): early return when not
connected; otherwise `++twinRequestId` (32-bit pattern), the GET topic printed
into a 64-byte buffer with the id as `%d`, `twinGetPending = true`, and the
flag reset to `false` when `mqttClient.publish` fails (`publishOk`).
`sentTopic` is the topic handed to `publish`, `none` when nothing was sent. -/
def azureIoTRequestTwin (st : IoTState) (transportUp publishOk : Bool) :
    RequestTwinResult :=
  if azureIoTIsConnected st transportUp then
    let newId := (st.twinRequestId + 1) % 2 ^ 32
    let topic := ("$iothub/twin/GET/?$rid=".data ++ intRepr (toSigned newId)).take 63
    let st1 := { st with twinRequestId := newId, twinGetPending := true }
    if publishOk then { state := st1, sentTopic := some topic }
    else { state := { st1 with twinGetPending := false }, sentTopic := some topic }
  else { state := st, sentTopic := none }

/-- `azureIoTUpdateReportedProperties` (azure_iot_mqtt.cpp:523-543): early
return when not connected, otherwise `++twinRequestId` and a PATCH publish
(the publish outcome does not change the state). -/
def azureIoTUpdateReportedProperties (st : IoTState) (transportUp : Bool) :
    RequestTwinResult :=
  if azureIoTIsConnected st transportUp then
    let newId := (st.twinRequestId + 1) % 2 ^ 32
    let topic := ("$iothub/twin/PATCH/properties/reported/?$rid=".data ++
        intRepr (toSigned newId)).take 63
    { state := { st with twinRequestId := newId }, sentTopic := some topic }
  else { state := st, sentTopic := none }

inductive CallbackEvent
  | c2dMsg (topic payload : List Char) (len : Nat)
  | desiredProps (payload : List Char) (version : Int)
  | twinReceived (payload : List Char)
deriving DecidableEq

/-- `mqttCallback` (azure_iot_mqtt.cpp:210-286): the payload is truncated to
the 1024-byte `messageContent` buffer, the topic classified, and the matching
application callback invoked (callbacks assumed registered; the emitted event
stands for the invocation).  A twin response fires the twin-received callback
only when `status == 200 && twinGetPending`, and clears the flag. -/
def mqttCallback (st : IoTState) (topic payload : List Char) :
    IoTState × Option CallbackEvent :=
  let content := payload.take 1023
  match classifyTopic topic with
  | .c2d => (st, some (.c2dMsg topic content payload.length))
  | .twinRes status =>
    if status = 200 ∧ st.twinGetPending = true then
      ({ st with twinGetPending := false }, some (.twinReceived content))
    else (st, none)
  | .desired version => (st, some (.desiredProps content version))
  | .unknown => (st, none)

/-! ### Helper lemmas about the connect loop -/

lemma connectLoop_state (transport : Nat → Bool) :
    ∀ (remaining retries : Nat) (st : IoTState),
      (connectLoop st transport retries remaining).state =
        { st with isConnected := (connectLoop st transport retries remaining).success } := by
  intro remaining
  induction remaining with
  | zero => intro retries st; rfl
  | succ rem ih =>
    intro retries st
    cases h : transport retries
    · simp [connectLoop, h, ih]
    · simp [connectLoop, h]

lemma azureIoTLoop_pending (st : IoTState) (transport : Nat → Bool) :
    (azureIoTLoop st false transport).twinGetPending = st.twinGetPending := by
  unfold azureIoTLoop azureIoTConnect
  cases h : st.isInitialized
  · simp [h]
  · simp [h, connectLoop_state]

/-! ### C5 -/

/-- C5: for hostname `h.example.net`, device id `dev1`, expiry `1700000000`,
the SAS signing string handed to HMAC-SHA256 is the percent-encoded resource
URI, a newline, then the decimal expiry. -/
theorem c5_signing_string :
    signingString "h.example.net".data "dev1".data 1700000000 =
      "h.example.net%2Fdevices%2Fdev1\n1700000000".data := by rfl

/-! ### C1 -/

/-- A connected session with a twin GET already pending (request id 1). -/
def pendingGetState : IoTState := ⟨true, true, 1, true, "tok".data, 0⟩

/-- C1 counterexample: with a GET already pending a second
`azureIoTRequestTwin` call still publishes another GET (`$rid=2`); there is no
Busy rejection and the pending flag is simply overwritten. -/
theorem c1_counterexample :
    pendingGetState.twinGetPending = true ∧
      (azureIoTRequestTwin pendingGetState true true).sentTopic =
        some "$iothub/twin/GET/?$rid=2".data ∧
      (azureIoTRequestTwin pendingGetState true true).state.twinGetPending = true :=
  ⟨rfl, rfl, rfl⟩

/-- C1 amended: `azureIoTRequestTwin` never consults `twinGetPending`: called
while connected with a GET already pending it publishes another GET request
with the next request id (the function has no Busy result), and on publish
success the flag stays pending. -/
theorem c1_amended (st : IoTState) (up pub : Bool)
    (hc : azureIoTIsConnected st up = true) (_hp : st.twinGetPending = true) :
    (azureIoTRequestTwin st up pub).sentTopic =
        some (("$iothub/twin/GET/?$rid=".data ++
          intRepr (toSigned ((st.twinRequestId + 1) % 2 ^ 32))).take 63) ∧
      (pub = true → (azureIoTRequestTwin st up pub).state.twinGetPending = true) := by
  cases pub <;> simp [azureIoTRequestTwin, hc]

/-- C1 amended, applied at a concrete pending state. -/
theorem c1_amended_witness :
    (azureIoTRequestTwin pendingGetState true true).sentTopic =
        some (("$iothub/twin/GET/?$rid=".data ++
          intRepr (toSigned ((pendingGetState.twinRequestId + 1) % 2 ^ 32))).take 63) ∧
      (true = true →
        (azureIoTRequestTwin pendingGetState true true).state.twinGetPending = true) :=
  c1_amended pendingGetState true true (by decide) (by decide)

/-! ### C2 -/

/-- C2 counterexample: a GET pending before the reconnect survives it
(`twinGetPending` is still true after `azureIoTLoop` reconnects), and a
matching status-200 twin response arriving afterwards still invokes the
twin-received callback. -/
theorem c2_counterexample :
    (azureIoTLoop pendingGetState false (fun _ => true)).twinGetPending = true ∧
      (mqttCallback (azureIoTLoop pendingGetState false (fun _ => true))
          "$iothub/twin/res/200/?$rid=1".data "{}".data).2 =
        some (.twinReceived "{}".data) := ⟨rfl, rfl⟩

/-- C2 amended: the reconnect inside `azureIoTLoop` leaves `twinGetPending`
unchanged — nothing transitions pending requests to Abandoned — so with a GET
pending before the reconnect, a status-200 twin response arriving afterwards
still invokes the twin-received callback. -/
theorem c2_amended (st : IoTState) (transport : Nat → Bool)
    (hp : st.twinGetPending = true) :
    (azureIoTLoop st false transport).twinGetPending = st.twinGetPending ∧
      ∀ payload,
        (mqttCallback (azureIoTLoop st false transport)
            "$iothub/twin/res/200/?$rid=1".data payload).2 =
          some (.twinReceived (payload.take 1023)) := by
  refine ⟨azureIoTLoop_pending st transport, fun payload => ?_⟩
  have hcls : classifyTopic "$iothub/twin/res/200/?$rid=1".data = .twinRes 200 := rfl
  simp [mqttCallback, hcls, azureIoTLoop_pending st transport, hp]

/-- C2 amended, applied at a concrete pending state and payload. -/
theorem c2_amended_witness :
    pendingGetState.twinGetPending = true ∧
      (mqttCallback (azureIoTLoop pendingGetState false (fun _ => true))
          "$iothub/twin/res/200/?$rid=1".data "{}".data).2 =
        some (.twinReceived ("{}".data.take 1023)) :=
  ⟨by decide, (c2_amended pendingGetState (fun _ => true) (by decide)).2 "{}".data⟩

/-! ### C10 -/

/-- C10: `azureIoTRequestTwin` failure behaviour: when not connected the whole
state (pending flag and request-id counter) is untouched and nothing is
published; when connected, a failed publish resets `twinGetPending` to false
and a successful publish leaves it true — the flag records a pending GET
exactly when the request was handed to the transport. -/
theorem c10_request_twin_failure (st : IoTState) (up pub : Bool) :
    (azureIoTIsConnected st up = false →
        azureIoTRequestTwin st up pub = ⟨st, none⟩) ∧
      (azureIoTIsConnected st up = true →
        (azureIoTRequestTwin st up false).state.twinGetPending = false ∧
          (azureIoTRequestTwin st up true).state.twinGetPending = true) := by
  constructor
  · intro h; simp [azureIoTRequestTwin, h]
  · intro h; constructor <;> simp [azureIoTRequestTwin, h]

/-- A session that is initialized but not connected, with a stale pending flag. -/
def offlineState : IoTState := ⟨true, false, 3, true, "tok".data, 0⟩

/-- C10, applied at concrete states on both sides of the connectivity split. -/
theorem c10_request_twin_failure_witness :
    azureIoTIsConnected offlineState true = false ∧
      azureIoTRequestTwin offlineState true true = ⟨offlineState, none⟩ ∧
      azureIoTIsConnected pendingGetState true = true ∧
      (azureIoTRequestTwin pendingGetState true false).state.twinGetPending = false :=
  ⟨by decide, (c10_request_twin_failure offlineState true true).1 (by decide),
    by decide, ((c10_request_twin_failure pendingGetState true false).2 (by decide)).1⟩

/-! ### C9 -/

/-- C9: each request advances the shared twin request id as a 32-bit pattern,
`(id + 1) % 2^32`, in both `azureIoTRequestTwin` and
`azureIoTUpdateReportedProperties`; the signed (`%d`) id strictly increases on
every successive request except exactly at `INT_MAX`, where the pattern wraps
modulo `2^32` to `INT_MIN` — a total function, never a crash. -/
theorem c9_request_id (st : IoTState) (up pub : Bool)
    (hc : azureIoTIsConnected st up = true) (hlt : st.twinRequestId < 2 ^ 32) :
    (azureIoTRequestTwin st up pub).state.twinRequestId =
        (st.twinRequestId + 1) % 2 ^ 32 ∧
      (azureIoTUpdateReportedProperties st up).state.twinRequestId =
        (st.twinRequestId + 1) % 2 ^ 32 ∧
      (st.twinRequestId ≠ 2 ^ 31 - 1 →
        toSigned ((st.twinRequestId + 1) % 2 ^ 32) = toSigned st.twinRequestId + 1) ∧
      (st.twinRequestId = 2 ^ 31 - 1 →
        (st.twinRequestId + 1) % 2 ^ 32 = 2 ^ 31 ∧
          toSigned ((st.twinRequestId + 1) % 2 ^ 32) = -(2 ^ 31)) := by
  refine ⟨?_, ?_, ?_, ?_⟩
  · cases pub <;> simp [azureIoTRequestTwin, hc]
  · simp [azureIoTUpdateReportedProperties, hc]
  · intro hne; unfold toSigned; split_ifs <;> omega
  · intro heq; rw [heq]
    refine ⟨by norm_num, ?_⟩
    unfold toSigned
    split_ifs <;> omega

/-- C9, applied at a pattern just below `INT_MAX` and at `INT_MAX` itself. -/
theorem c9_request_id_witness :
    (azureIoTRequestTwin pendingGetState true true).state.twinRequestId =
        (pendingGetState.twinRequestId + 1) % 2 ^ 32 ∧
      toSigned ((2 ^ 31 - 1 + 1) % 2 ^ 32) = -(2 ^ 31) :=
  ⟨(c9_request_id pendingGetState true true (by decide) (by decide)).1,
    ((c9_request_id ⟨true, true, 2 ^ 31 - 1, false, [], 0⟩ true true (by decide)
      (by norm_num)).2.2.2 rfl).2⟩

/-! ### C3 -/

/-- C3: the `azureIoTConnect` retry loop: a transport failing the first four
attempts and succeeding on the fifth yields success after exactly 5 attempts;
a transport failing every attempt yields failure after exactly 5 attempts; a
fixed `delay(3000)` separates consecutive attempts, and no sixth attempt ever
happens (the complete event traces are stated). -/
theorem c3_connect_retries (st : IoTState) (transport : Nat → Bool)
    (hinit : st.isInitialized = true) :
    ((∀ i, i < 4 → transport i = false) → transport 4 = true →
        azureIoTConnect st transport =
          { state := { st with isConnected := true }, success := true,
            trace := [.attempt 1 st.sasToken false, .delayMs 3000,
              .attempt 2 st.sasToken false, .delayMs 3000,
              .attempt 3 st.sasToken false, .delayMs 3000,
              .attempt 4 st.sasToken false, .delayMs 3000,
              .attempt 5 st.sasToken true] }) ∧
      ((∀ i, transport i = false) →
        azureIoTConnect st transport =
          { state := { st with isConnected := false }, success := false,
            trace := [.attempt 1 st.sasToken false, .delayMs 3000,
              .attempt 2 st.sasToken false, .delayMs 3000,
              .attempt 3 st.sasToken false, .delayMs 3000,
              .attempt 4 st.sasToken false, .delayMs 3000,
              .attempt 5 st.sasToken false, .delayMs 3000] }) := by
  constructor
  · intro h4 h5
    have h0 := h4 0 (by omega); have h1 := h4 1 (by omega)
    have h2 := h4 2 (by omega); have h3 := h4 3 (by omega)
    simp [azureIoTConnect, hinit, connectLoop, h0, h1, h2, h3, h5]
  · intro hall
    simp [azureIoTConnect, hinit, connectLoop,
      hall 0, hall 1, hall 2, hall 3, hall 4]

/-- An initialized, disconnected session whose stored token has expiry 100. -/
def sampleState : IoTState := ⟨true, false, 0, false, "T0".data, 100⟩

/-- C3, applied to a transport succeeding only on the fifth attempt and to an
always-failing transport. -/
theorem c3_connect_retries_witness :
    (azureIoTConnect sampleState (fun i => decide (i = 4))).success = true ∧
      (azureIoTConnect sampleState (fun _ => false)).success = false := by
  constructor
  · have h := (c3_connect_retries sampleState (fun i => decide (i = 4)) rfl).1
      (by decide) (by decide)
    rw [h]
  · have h := (c3_connect_retries sampleState (fun _ => false) rfl).2 (fun i => rfl)
    rw [h]

/-! ### C4 -/

/-- Passwords carried by the CONNECT attempts of a trace. -/
def attemptPasswords (tr : List ConnectEvent) : List (List Char) :=
  tr.filterMap fun e =>
    match e with
    | .attempt _ pw _ => some pw
    | .delayMs _ => none

lemma connectLoop_passwords (transport : Nat → Bool) :
    ∀ (remaining retries : Nat) (st : IoTState) (pw : List Char),
      pw ∈ attemptPasswords (connectLoop st transport retries remaining).trace →
      pw = st.sasToken := by
  intro remaining
  induction remaining with
  | zero => intro retries st pw h; simp [connectLoop, attemptPasswords] at h
  | succ rem ih =>
    intro retries st pw h
    cases htr : transport retries
    · simp only [connectLoop, htr, Bool.false_eq_true, if_false,
        attemptPasswords, List.filterMap_cons] at h
      simp only [List.mem_cons] at h
      rcases h with h | h
      · exact h
      · exact ih (retries + 1) st pw (by simpa [attemptPasswords] using h)
    · simp [connectLoop, htr, attemptPasswords] at h
      exact h

/-- C4 counterexample: `sampleState` stores the init-time token `"T0"` with
expiry 100; at instant 200 that token is stale, yet the CONNECT attempt still
passes exactly the stored token — `azureIoTConnect` takes no time input and
contains no regeneration step, so the same trace holds at every instant. -/
theorem c4_counterexample :
    (azureIoTConnect sampleState (fun _ => true)).trace =
        [ConnectEvent.attempt 1 sampleState.sasToken true] ∧
      sampleState.sasTokenExpiry < 200 := ⟨rfl, by decide⟩

/-- C4 amended: every CONNECT attempt `azureIoTConnect` makes passes the
stored `sasToken` — the token computed at initialization — as the password,
regardless of the current time; the token is never checked for staleness nor
regenerated. -/
theorem c4_amended (st : IoTState) (transport : Nat → Bool) (pw : List Char)
    (h : pw ∈ attemptPasswords (azureIoTConnect st transport).trace) :
    pw = st.sasToken := by
  unfold azureIoTConnect at h
  cases hinit : st.isInitialized
  · rw [hinit] at h; simp [attemptPasswords] at h
  · rw [hinit] at h
    exact connectLoop_passwords transport 5 0 st pw (by simpa using h)

/-- C4 amended, applied at a concrete state and transport. -/
theorem c4_amended_witness :
    "T0".data ∈ attemptPasswords (azureIoTConnect sampleState (fun _ => true)).trace ∧
      ("T0".data : List Char) = sampleState.sasToken :=
  ⟨by decide, c4_amended sampleState (fun _ => true) "T0".data (by decide)⟩

/-! ### C6 -/

lemma containsSub_eq_tailsAny (needle : List Char) :
    ∀ hay : List Char,
      containsSub hay needle = hay.tails.any (fun t => needle.isPrefixOf t) := by
  intro hay
  induction hay with
  | nil =>
    cases h : needle.isPrefixOf [] <;>
      simp [containsSub, firstOccur, List.tails, h]
  | cons a t ih =>
    cases h : needle.isPrefixOf (a :: t) <;>
      simp [containsSub, firstOccur, List.tails_cons, h, ← ih, Option.isSome_map]

/-- C6: the inbound-topic router of `mqttCallback` classifies every topic into
exactly one kind in the spec's priority order — `classifyTopic` agrees with
the spec-worded `routerSpec` on every topic — and the concrete examples are
classified as the claim states, including the version default 0. -/
theorem c6_topic_router :
    (∀ topic : List Char, classifyTopic topic = routerSpec topic) ∧
      classifyTopic "devices/dev1/messages/devicebound/xyz".data = .c2d ∧
      classifyTopic "$iothub/twin/res/200/?$rid=3".data = .twinRes 200 ∧
      classifyTopic "$iothub/twin/PATCH/properties/desired/?$version=5".data =
        .desired 5 ∧
      classifyTopic "$iothub/twin/PATCH/properties/desired/".data = .desired 0 := by
  refine ⟨fun topic => ?_, rfl, rfl, rfl, rfl⟩
  have e1 : ("$iothub/twin/res/".data).length = 17 := rfl
  have e2 : ("$version=".data).length = 9 := rfl
  unfold classifyTopic routerSpec
  rw [containsSub_eq_tailsAny, e1, e2]

/-! ### C8 -/

lemma hexVal_hexUpper : ∀ d < 16, hexVal (hexUpper d) = d := by decide

lemma isUnreservedChar_ne_percent {c : Char} (h : isUnreservedChar c = true) :
    c ≠ '%' := by
  intro heq; rw [heq] at h; exact absurd h (by decide)

lemma percentDecode_cons {c : Char} (t : List Char) (hc : c ≠ '%') :
    percentDecode (c :: t) = c :: percentDecode t := by
  match t with
  | [] => rfl
  | [d] => rfl
  | d :: e :: r => simp [percentDecode, hc]

lemma percentDecode_percent (d e : Char) (r : List Char) :
    percentDecode ('%' :: d :: e :: r) =
      Char.ofNat (16 * hexVal d + hexVal e) :: percentDecode r := by
  simp [percentDecode]

lemma percentDecode_urlEncodeAux :
    ∀ (s : List Char) (j n : Nat),
      (∀ c ∈ s, c.toNat ≠ 0 ∧ c.toNat < 256) →
      j + 3 * s.length + 4 ≤ n →
      percentDecode (urlEncodeAux s j n) = s := by
  intro s
  induction s with
  | nil => intro j n _ _; rfl
  | cons c rest ih =>
    intro j n hval hlen
    obtain ⟨hc0, hc256⟩ := hval c (List.mem_cons_self c rest)
    have hrest : ∀ x ∈ rest, x.toNat ≠ 0 ∧ x.toNat < 256 :=
      fun x hx => hval x (List.mem_cons_of_mem c hx)
    have hlen' : j + 3 * rest.length + 4 + 3 ≤ n := by
      simp only [List.length_cons] at hlen; omega
    have hj : j < n - 4 := by omega
    simp only [urlEncodeAux]
    rw [if_neg hc0, if_pos hj]
    by_cases hu : isUnreservedChar c = true
    · rw [if_pos hu, percentDecode_cons _ (isUnreservedChar_ne_percent hu),
        ih (j + 1) n hrest (by omega)]
    · rw [if_neg hu, percentDecode_percent, ih (j + 3) n hrest (by omega)]
      have h256 : c.toNat % 256 = c.toNat := Nat.mod_eq_of_lt hc256
      rw [h256, hexVal_hexUpper _ (by omega),
        hexVal_hexUpper _ (Nat.mod_lt _ (by omega)),
        Nat.div_add_mod c.toNat 16, Char.ofNat_toNat]

/-- C8 amended: percent-encoding round-trips — `percentDecode (urlEncode s n) = s`
— for every byte string of nonzero bytes (the C function reads a
NUL-terminated string) whenever the output buffer is large enough that the
`j < outputSize - 4` guard never truncates; the counterexample shows the
round trip fails once truncation occurs. -/
theorem c8_amended (s : List Char) (n : Nat)
    (hval : ∀ c ∈ s, c.toNat ≠ 0 ∧ c.toNat < 256)
    (hn : 3 * s.length + 4 ≤ n) :
    percentDecode (urlEncode s n) = s :=
  percentDecode_urlEncodeAux s 0 n hval (by omega)

/-- C8 amended, applied to a string mixing reserved and unreserved bytes. -/
theorem c8_amended_witness :
    (∀ c ∈ "a b~/:".data, c.toNat ≠ 0 ∧ c.toNat < 256) ∧
      percentDecode (urlEncode "a b~/:".data 256) = "a b~/:".data :=
  ⟨by decide, c8_amended "a b~/:".data 256 (by decide) (by decide)⟩

/-- C8 counterexample: 43 reserved bytes expand to 129 output bytes, more than
the 128-byte signature buffer `urlEncode` is actually called with
(azure_iot_mqtt.cpp:197-198), so the encoder truncates after 42 encoded bytes
and decoding the result does not give the input back. -/
theorem c8_counterexample :
    percentDecode (urlEncode (List.replicate 43 '/') 128) ≠
      List.replicate 43 '/' := by decide

/-! ### C7 -/

/-- `tagStr` occurs in `connStr` exactly at position `pos` (unique within the
string), followed by the value `v` and then `;` or the end of the string, and
`v` itself contains no `;`. -/
def fieldShape (connStr tagStr v : List Char) (pos : Nat) : Prop :=
  connStr.drop pos =
      tagStr ++ (v ++ connStr.drop (pos + tagStr.length + v.length)) ∧
    (connStr.drop (pos + tagStr.length + v.length) = [] ∨
      (connStr.drop (pos + tagStr.length + v.length)).head? = some ';') ∧
    (∀ j, j ≤ connStr.length → tagStr.isPrefixOf (connStr.drop j) = true → j = pos) ∧
    (∀ c ∈ v, c ≠ ';')

instance (connStr tagStr v : List Char) (pos : Nat) :
    Decidable (fieldShape connStr tagStr v pos) := by
  unfold fieldShape; infer_instance

/-- `tagStr` occurs nowhere in `connStr`. -/
def tagAbsent (connStr tagStr : List Char) : Prop :=
  ∀ j, j ≤ connStr.length → tagStr.isPrefixOf (connStr.drop j) = false

instance (connStr tagStr : List Char) : Decidable (tagAbsent connStr tagStr) := by
  unfold tagAbsent; infer_instance

lemma isPrefixOf_append_self : ∀ (t r : List Char), t.isPrefixOf (t ++ r) = true := by
  intro t r
  induction t with
  | nil => simp [List.isPrefixOf]
  | cons a t ih => simp [List.isPrefixOf, ih]

lemma isPrefixOf_nil_false {t : List Char} (h : t ≠ []) :
    t.isPrefixOf ([] : List Char) = false := by
  cases t with
  | nil => exact absurd rfl h
  | cons a r => rfl

lemma firstOccur_some_of :
    ∀ (hay tag : List Char) (pos : Nat),
      tag.isPrefixOf (hay.drop pos) = true →
      (∀ j, j < pos → tag.isPrefixOf (hay.drop j) = false) →
      firstOccur hay tag = some pos := by
  intro hay
  induction hay with
  | nil =>
    intro tag pos hocc hmin
    rw [List.drop_nil] at hocc
    cases pos with
    | zero => simp only [firstOccur]; rw [if_pos hocc]
    | succ p =>
      have := hmin 0 (Nat.succ_pos p)
      rw [List.drop_nil] at this
      rw [hocc] at this
      exact absurd this (by simp)
  | cons a t ih =>
    intro tag pos hocc hmin
    cases pos with
    | zero =>
      rw [List.drop_zero] at hocc
      simp only [firstOccur]; rw [if_pos hocc]
    | succ p =>
      have h0 : tag.isPrefixOf (a :: t) = false := by
        have := hmin 0 (Nat.succ_pos p); rwa [List.drop_zero] at this
      simp only [firstOccur]
      rw [if_neg (by simp [h0])]
      rw [ih tag p (by simpa using hocc)
        (fun j hj => by simpa using hmin (j + 1) (by omega))]
      rfl

lemma firstOccur_none_of :
    ∀ (hay tag : List Char), tag ≠ [] →
      (∀ j, j ≤ hay.length → tag.isPrefixOf (hay.drop j) = false) →
      firstOccur hay tag = none := by
  intro hay
  induction hay with
  | nil =>
    intro tag htag _
    simp only [firstOccur]
    rw [if_neg (by simp [isPrefixOf_nil_false htag])]
  | cons a t ih =>
    intro tag htag h
    have h0 : tag.isPrefixOf (a :: t) = false := by
      simpa using h 0 (by omega)
    simp only [firstOccur]
    rw [if_neg (by simp [h0])]
    rw [ih tag htag (fun j hj => by
      simpa using h (j + 1) (by simp only [List.length_cons]; omega))]
    rfl

lemma takeWhile_semi (v B : List Char) (hv : ∀ c ∈ v, c ≠ ';')
    (hB : B = [] ∨ B.head? = some ';') :
    (v ++ B).takeWhile notSemi = v := by
  induction v with
  | nil =>
    rcases hB with h | h
    · simp [h]
    · cases B with
      | nil => simp
      | cons b bs =>
        simp only [List.head?] at h
        have hb : b = ';' := by injection h
        simp [List.takeWhile_cons, hb, notSemi]
  | cons a v' ih =>
    have ha : notSemi a = true := by simp [notSemi, hv a (List.mem_cons_self a v')]
    simp [List.takeWhile_cons, ha,
      ih (fun c hc => hv c (List.mem_cons_of_mem a hc))]

lemma parseField_ok (connStr tagStr v : List Char) (pos bufSize : Nat)
    (f : ParseFieldName) (htag : tagStr ≠ [])
    (hshape : fieldShape connStr tagStr v pos) (hlen : v.length < bufSize) :
    parseField connStr tagStr bufSize f = .ok v := by
  obtain ⟨hdec, hB, huniq, hv⟩ := hshape
  have hocc : tagStr.isPrefixOf (connStr.drop pos) = true := by
    rw [hdec]; exact isPrefixOf_append_self _ _
  have hpos : pos < connStr.length := by
    by_contra hcon
    have hnil : connStr.drop pos = [] := List.drop_eq_nil_of_le (by omega)
    rw [hnil] at hocc
    rw [isPrefixOf_nil_false htag] at hocc
    exact absurd hocc (by simp)
  have hmin : ∀ j, j < pos → tagStr.isPrefixOf (connStr.drop j) = false := by
    intro j hj
    cases hb : tagStr.isPrefixOf (connStr.drop j)
    · rfl
    · have := huniq j (by omega) hb
      omega
  have hfo : firstOccur connStr tagStr = some pos :=
    firstOccur_some_of connStr tagStr pos hocc hmin
  have hdrop : connStr.drop (pos + tagStr.length) =
      v ++ connStr.drop (pos + tagStr.length + v.length) := by
    have h1 : connStr.drop (pos + tagStr.length) =
        (connStr.drop pos).drop tagStr.length := by
      rw [List.drop_drop, Nat.add_comm]
    rw [h1, hdec, List.drop_left]
  unfold parseField
  rw [hfo]
  dsimp only
  rw [hdrop, takeWhile_semi v _ hv hB, if_neg (by omega)]

lemma parseField_missing (connStr tagStr : List Char) (bufSize : Nat)
    (f : ParseFieldName) (htag : tagStr ≠ []) (h : tagAbsent connStr tagStr) :
    parseField connStr tagStr bufSize f = .error (.missingField f) := by
  unfold parseField
  rw [firstOccur_none_of connStr tagStr htag h]

/-- C7 counterexample: the string
`GatewayHostName=g;HostName=h;DeviceId=d;SharedAccessKey=k` is a `;`-delimited
sequence of `key=value` pairs with HostName, DeviceId, SharedAccessKey each
exactly once as keys, yet `parseConnectionString` recovers hostname `g` — the
`strstr`-based search finds `HostName=` inside `GatewayHostName=` — instead of
the HostName pair's value `h`. -/
theorem c7_counterexample :
    parseConnectionString
        "GatewayHostName=g;HostName=h;DeviceId=d;SharedAccessKey=k".data =
      .ok ⟨"g".data, "d".data, "k".data⟩ ∧
    ("g".data : List Char) ≠ "h".data := ⟨rfl, by decide⟩

/-- C7 amended: `parseConnectionString` recovers exactly the three field
values for every connection string in which each tag `HostName=`, `DeviceId=`,
`SharedAccessKey=` occurs exactly once as a substring (in particular no other
key or value may embed a tag), immediately followed by its `;`-free value and
then `;` or the end of the string, with each value fitting its buffer
(host < 128, device and key < 64) — any pair order satisfies this; and a
string whose tag occurs nowhere fails with the `missingField` error naming
that key (earlier-checked fields well-formed where required, since the C code
checks HostName, then DeviceId, then SharedAccessKey). -/
theorem c7_amended (connStr hostV devV keyV : List Char) (posH posD posK : Nat)
    (hH : fieldShape connStr "HostName=".data hostV posH) (hlH : hostV.length < 128)
    (hD : fieldShape connStr "DeviceId=".data devV posD) (hlD : devV.length < 64)
    (hK : fieldShape connStr "SharedAccessKey=".data keyV posK)
    (hlK : keyV.length < 64) :
    parseConnectionString connStr = .ok ⟨hostV, devV, keyV⟩ ∧
      (∀ cs, tagAbsent cs "HostName=".data →
        parseConnectionString cs = .error (.missingField .hostName)) ∧
      (∀ cs h2 p2, fieldShape cs "HostName=".data h2 p2 → h2.length < 128 →
        tagAbsent cs "DeviceId=".data →
        parseConnectionString cs = .error (.missingField .devId)) ∧
      (∀ cs h2 d2 p2 q2, fieldShape cs "HostName=".data h2 p2 → h2.length < 128 →
        fieldShape cs "DeviceId=".data d2 q2 → d2.length < 64 →
        tagAbsent cs "SharedAccessKey=".data →
        parseConnectionString cs = .error (.missingField .sharedKey)) := by
  refine ⟨?_, ?_, ?_, ?_⟩
  · unfold parseConnectionString
    rw [parseField_ok connStr "HostName=".data hostV posH 128 .hostName
        (by decide) hH hlH,
      parseField_ok connStr "DeviceId=".data devV posD 64 .devId
        (by decide) hD hlD,
      parseField_ok connStr "SharedAccessKey=".data keyV posK 64 .sharedKey
        (by decide) hK hlK]
  · intro cs habs
    unfold parseConnectionString
    rw [parseField_missing cs "HostName=".data 128 .hostName (by decide) habs]
  · intro cs h2 p2 hs hl habs
    unfold parseConnectionString
    rw [parseField_ok cs "HostName=".data h2 p2 128 .hostName (by decide) hs hl,
      parseField_missing cs "DeviceId=".data 64 .devId (by decide) habs]
  · intro cs h2 d2 p2 q2 hs hl hs2 hl2 habs
    unfold parseConnectionString
    rw [parseField_ok cs "HostName=".data h2 p2 128 .hostName (by decide) hs hl,
      parseField_ok cs "DeviceId=".data d2 q2 64 .devId (by decide) hs2 hl2,
      parseField_missing cs "SharedAccessKey=".data 64 .sharedKey (by decide) habs]

/-- C7 amended, applied to a concrete well-formed connection string. -/
theorem c7_amended_witness :
    parseConnectionString "HostName=h;DeviceId=d;SharedAccessKey=k".data =
      .ok ⟨"h".data, "d".data, "k".data⟩ :=
  (c7_amended "HostName=h;DeviceId=d;SharedAccessKey=k".data
    "h".data "d".data "k".data 0 11 22
    (by decide) (by decide) (by decide) (by decide) (by decide) (by decide)).1
